import Mathlib

/-
Verification of the recipe-app core logic (difficulty classification,
ingredient parsing, search/filter pipeline, chart generation) against its
natural-language specification.  The Python source under
`recipe_project/apps/recipe/` is shallowly embedded below: text is `String`,
database rows are explicit structures, the matplotlib rendering surface is an
explicit figure state threaded through `get_chart`.
-/

/-- Whitespace characters stripped by Python `str.strip()` (ASCII range). -/
def pyIsSpace (c : Char) : Bool :=
  c = ' ' || c = '\t' || c = '\n' || c = '\r' || c = '\x0b' || c = '\x0c'

/-- Strip leading and trailing whitespace from a character list, as Python
`str.strip()` does. -/
def stripChars (s : List Char) : List Char :=
  ((s.dropWhile pyIsSpace).reverse.dropWhile pyIsSpace).reverse

/-- Python `str.strip()` on strings. -/
def pyStrip (s : String) : String :=
  ⟨stripChars s.data⟩

/-- Python `str.split(',')` on character lists: `""` yields one empty token,
and adjacent commas yield empty tokens. -/
def splitCommaChars : List Char → List (List Char)
  | [] => [[]]
  | c :: cs =>
    if c = ',' then [] :: splitCommaChars cs
    else
      match splitCommaChars cs with
      | [] => [[c]]
      | t :: ts => (c :: t) :: ts

/-- Python `s.split(',')` on strings. -/
def pySplitComma (s : String) : List String :=
  (splitCommaChars s.data).map String.mk

/-- Lower-case a string character-wise (Python `str.lower()` on ASCII). -/
def pyLower (s : String) : String :=
  ⟨s.data.map Char.toLower⟩

/-- Boolean test that `pre` is a leading segment of `l`. -/
def startsWithChars : List Char → List Char → Bool
  | [], _ => true
  | _ :: _, [] => false
  | a :: as, b :: bs => a = b && startsWithChars as bs

/-- Boolean test that `needle` occurs contiguously somewhere in `hay`. -/
def hasSubstrChars (needle : List Char) : List Char → Bool
  | [] => startsWithChars needle []
  | c :: t => startsWithChars needle (c :: t) || hasSubstrChars needle t

/-- Embedding of the Django ORM `__icontains` lookup (an external collaborator
of this code): case-insensitive substring containment of `needle` in `hay`. -/
def icontains (hay needle : String) : Bool :=
  hasSubstrChars (pyLower needle).data (pyLower hay).data

/-- Embedding of `Recipe.ingredients_list` (models.py): return `[]` for an
empty (falsy) ingredients string, otherwise split on commas, strip each item,
and keep the stripped item exactly when it is non-empty (truthy), as the
comprehension `[item.strip() for item in self.ingredients.split(',') if
item.strip()]` does. -/
def ingredients_list (ingredients : String) : List String :=
  if ingredients = "" then []
  else
    (pySplitComma ingredients).filterMap (fun item =>
      if pyStrip item ≠ "" then some (pyStrip item) else none)

/-- The ingredient-list derivation exactly as the spec words it (section 3):
split on commas, trim whitespace from each token, discard empty tokens,
preserving order and duplicates.  Stated separately from `ingredients_list`
so the two can be compared. -/
def ingredientsList_spec (s : String) : List String :=
  ((pySplitComma s).map pyStrip).filter (fun t => t ≠ "")

/-- Embedding of the classification at the heart of `Recipe.difficulty`
(models.py): the chain of `if` returns over the cooking time and the number
of parsed ingredients, with the final `return 'Hard'` as the fall-through. -/
def difficultyOf (cooking_time num_ingredients : Nat) : String :=
  if cooking_time < 10 ∧ num_ingredients < 4 then "Easy"
  else if cooking_time < 10 ∧ num_ingredients ≥ 4 then "Medium"
  else if cooking_time ≥ 10 ∧ num_ingredients < 4 then "Intermediate"
  else "Hard"

/-- A stored recipe row (models.py `Recipe`): primary key, the persisted
fields, and the owning user's key.  `description` and `pic` are nullable. -/
structure Recipe where
  id : Nat
  name : String
  cooking_time : Nat
  ingredients : String
  description : Option String
  category : String
  pic : Option String
  user : Nat
deriving DecidableEq, Repr

/-- Embedding of the method `Recipe.difficulty` (models.py): count the parsed
ingredients, then classify. -/
def Recipe.difficulty (r : Recipe) : String :=
  difficultyOf r.cooking_time (ingredients_list r.ingredients).length

-- Sample rows used by concrete witnesses below.
def spaghetti : Recipe :=
  ⟨1, "Spaghetti Carbonara", 25, "spaghetti, eggs, pancetta, parmesan, black pepper",
   none, "dinner", none, 1⟩

def caesarSalad : Recipe :=
  ⟨2, "Caesar Salad", 8, "lettuce, dressing", none, "lunch", none, 1⟩

/-- Raw request parameters relevant to the search (forms.py and the raw
`data.get(...)` reads in views.py).  `none` models an absent key; a Django
`QueryDict` value is a string, possibly empty. -/
structure SearchData where
  recipe_name : Option String
  ingredient : Option String
  chart_type : Option String
  difficulty : Option String
  category : Option String
deriving DecidableEq, Repr

def emptySearchData : SearchData := ⟨none, none, none, none, none⟩

/-- Python truthiness of the request `QueryDict`: truthy exactly when it has
at least one key. -/
def dataTruthy (d : SearchData) : Bool :=
  d.recipe_name.isSome || d.ingredient.isSome || d.chart_type.isSome
    || d.difficulty.isSome || d.category.isSome

/-- The values of `CHART_CHOICES` in forms.py. -/
def CHART_CHOICES : List String := ["#1", "#2", "#3"]

/-- The values of `DIFFICULTY_CHOICES` in forms.py. -/
def DIFFICULTY_CHOICES : List String := ["", "Easy", "Medium", "Intermediate", "Hard"]

/-- Embedding of Django `forms.CharField(max_length, required=False)`
validation (forms.py; Django is an external collaborator): an absent or empty
value is accepted, and a present value must not exceed `max_length`. -/
def charFieldValid (max_length : Nat) (v : Option String) : Bool :=
  (v.getD "").length ≤ max_length

/-- Embedding of Django `forms.ChoiceField` validation: an empty value is
rejected exactly when the field is required, and a non-empty value must be
one of the declared choices. -/
def choiceFieldValid (choices : List String) (required : Bool) (v : Option String) : Bool :=
  if v.getD "" = "" then !required else choices.contains (v.getD "")

/-- Embedding of `RecipeSearchForm(...).is_valid()` (forms.py): an unbound
form (constructed from `data or None` with falsy data) is never valid; a
bound form is valid when every field validates.  `recipe_name` and
`ingredient` are optional `CharField(max_length=120)`; `chart_type` is a
required `ChoiceField(CHART_CHOICES)`; `difficulty` is an optional
`ChoiceField(DIFFICULTY_CHOICES)`.  `category` is not a form field. -/
def RecipeSearchForm.is_valid (bound : Option SearchData) : Bool :=
  match bound with
  | none => false
  | some d =>
    charFieldValid 120 d.recipe_name
      && charFieldValid 120 d.ingredient
      && choiceFieldValid CHART_CHOICES true d.chart_type
      && choiceFieldValid DIFFICULTY_CHOICES false d.difficulty

/-- Filter 1 of `RecipeListView.get_context_data` (views.py):
`if recipe_name: qs = qs.filter(name__icontains=recipe_name)`.  An absent key
(`None`) and an empty string are both falsy, hence pass-throughs. -/
def filterByName (recipe_name : Option String) (qs : List Recipe) : List Recipe :=
  if recipe_name.getD "" ≠ "" then
    qs.filter (fun r => icontains r.name (recipe_name.getD ""))
  else qs

/-- Filter 2: `if ingredient: qs = qs.filter(ingredients__icontains=ingredient)` —
a substring match against the raw comma-separated `ingredients` text. -/
def filterByIngredient (ingredient : Option String) (qs : List Recipe) : List Recipe :=
  if ingredient.getD "" ≠ "" then
    qs.filter (fun r => icontains r.ingredients (ingredient.getD ""))
  else qs

/-- Filter 3: `if category: qs = qs.filter(category=category)` — exact match. -/
def filterByCategory (category : Option String) (qs : List Recipe) : List Recipe :=
  if category.getD "" ≠ "" then
    qs.filter (fun r => r.category = category.getD "")
  else qs

/-- Filter 4: the computed-difficulty filter.  The loop collects the ids of
the surviving rows whose computed difficulty equals the requested value, and
the queryset is then narrowed with `id__in=filtered_recipes`. -/
def filterByDifficulty (difficulty : Option String) (qs : List Recipe) : List Recipe :=
  if difficulty.getD "" ≠ "" then
    let filtered_recipes :=
      (qs.filter (fun r => Recipe.difficulty r = difficulty.getD "")).map (fun r => r.id)
    qs.filter (fun r => filtered_recipes.contains r.id)
  else qs

/-- The filtering portion of `RecipeListView.get_context_data` (views.py):
start from `Recipe.objects.all()` and apply the four conditional filters in
program order. -/
def applyFilters (d : SearchData) (db : List Recipe) : List Recipe :=
  filterByDifficulty d.difficulty
    (filterByCategory d.category
      (filterByIngredient d.ingredient
        (filterByName d.recipe_name db)))

/-- One row of `recipes_df` (views.py): the recipe's stored fields together
with the two computed columns added after the DataFrame is built. -/
structure AnnotatedRow where
  recipe : Recipe
  difficulty : String
  ingredients_count : Nat
deriving DecidableEq, Repr

/-- Construction of `recipes_df` from the surviving queryset (views.py):
`pd.DataFrame(qs.values())` plus the `difficulty` and `ingredients_count`
columns computed per row. -/
def annotateRows (qs : List Recipe) : List AnnotatedRow :=
  qs.map (fun r => ⟨r, Recipe.difficulty r, (ingredients_list r.ingredients).length⟩)

/-- Drawing operations recorded on the current matplotlib figure by
`get_chart` (utils.py). -/
inductive DrawCmd where
  | bar (names : List String) (times : List Nat)
  | pie (slices : List (String × Nat))
  | line (names : List String) (times : List Nat)
  | xlabel (s : String)
  | ylabel (s : String)
  | title (s : String)
  | xticksRotate (deg : Nat)
  | grid
deriving DecidableEq, Repr

/-- The matplotlib pyplot current figure: its size in inches and the drawing
commands issued against it.  This is the mutable module-level state the spec
worries about leaking between `get_chart` invocations. -/
structure PltFigure where
  width : Nat
  height : Nat
  commands : List DrawCmd
deriving DecidableEq, Repr

/-- Embedding of `pandas.Series.value_counts()` over the difficulty column
(pandas is an external collaborator): the distinct values with their counts.
Pandas orders by descending count; the order of the pairs is not relied on by
any theorem below, so first-occurrence order is used here. -/
def value_counts (l : List String) : List (String × Nat) :=
  l.eraseDups.map (fun v => (v, l.count v))

def serializeNats (l : List Nat) : String :=
  String.intercalate "|" (l.map toString)

def serializeCmd : DrawCmd → String
  | .bar names times => "bar(" ++ String.intercalate "|" names ++ ";" ++ serializeNats times ++ ")"
  | .pie slices =>
    "pie(" ++ String.intercalate "|" (slices.map (fun p => p.1 ++ ":" ++ toString p.2)) ++ ")"
  | .line names times => "line(" ++ String.intercalate "|" names ++ ";" ++ serializeNats times ++ ")"
  | .xlabel s => "xlabel(" ++ s ++ ")"
  | .ylabel s => "ylabel(" ++ s ++ ")"
  | .title s => "title(" ++ s ++ ")"
  | .xticksRotate d => "xticks(" ++ toString d ++ ")"
  | .grid => "grid"

/-- Embedding of `get_graph` (utils.py): `plt.savefig` renders the current
figure to PNG bytes which are then base64-encoded and decoded to a string.
The PNG/base64 encoding itself belongs to the external matplotlib and base64
collaborators; it is modelled as a tagged serialization of the figure, which
is what the encoding is: a non-empty string determined by the figure. -/
def get_graph (fig : PltFigure) : String :=
  "iVBORpng" ++ toString fig.width ++ "x" ++ toString fig.height ++ ":"
    ++ String.intercalate "," (fig.commands.map serializeCmd)

/-- Embedding of `get_chart(chart_type, data, **kwargs)` (utils.py) as a
function of the current pyplot figure: `plt.switch_backend('AGG')` (no figure
effect), `plt.clf()` (clear the current figure), `plt.figure(figsize=(8,5))`
(a fresh empty figure becomes current), then the branch on `chart_type` draws
on it ('#1' bar, '#2' pie over `value_counts` of the difficulty column, '#3'
line, anything else only prints 'Unknown chart type' and draws nothing),
`plt.tight_layout()` (layout only), and finally `get_graph()`.  The result is
the new current figure and the returned string; the Python function returns a
string on every path even though its docstring promises `None` for an invalid
chart type or empty data, hence the `Option` result is always `some`. -/
def get_chart (chart_type : Option String) (data : List AnnotatedRow)
    (st : PltFigure) : PltFigure × Option String :=
  let _cleared : PltFigure := { st with commands := [] }
  let fig0 : PltFigure := ⟨8, 5, []⟩
  let names := data.map (fun row => row.recipe.name)
  let times := data.map (fun row => row.recipe.cooking_time)
  let fig :=
    if chart_type = some "#1" then
      { fig0 with commands := [DrawCmd.bar names times, DrawCmd.xlabel "Recipe Name",
          DrawCmd.ylabel "Cooking Time (minutes)", DrawCmd.title "Cooking Time by Recipe",
          DrawCmd.xticksRotate 45] }
    else if chart_type = some "#2" then
      { fig0 with commands := [DrawCmd.pie (value_counts (data.map (fun row => row.difficulty))),
          DrawCmd.title "Recipe Distribution by Difficulty"] }
    else if chart_type = some "#3" then
      { fig0 with commands := [DrawCmd.line names times, DrawCmd.xlabel "Recipe Name",
          DrawCmd.ylabel "Cooking Time (minutes)", DrawCmd.title "Cooking Time Trend",
          DrawCmd.xticksRotate 45, DrawCmd.grid] }
    else fig0
  (fig, some (get_graph fig))

/-- Request methods distinguished by `get_context_data` (views.py): the code
branches on POST, then GET, with a final `else: data = None`. -/
inductive Method where
  | get
  | post
  | other
deriving DecidableEq, Repr

/-- An incoming request: its method and its GET and POST parameter dicts. -/
structure HttpRequest where
  method : Method
  getParams : SearchData
  postParams : SearchData
deriving DecidableEq, Repr

/-- The search-relevant slice of the template context built by
`RecipeListView.get_context_data` (views.py): `object_list` from the parent
`ListView` context (the full collection; pagination is not modelled),
`recipes_df` (the annotated search-result table, or `None`), and `chart`
(the encoded image, or `None`). -/
structure SearchContext where
  object_list : List Recipe
  recipes_df : Option (List AnnotatedRow)
  chart : Option String
deriving DecidableEq, Repr

/-- Embedding of `RecipeListView.get_context_data` (views.py): select the
request data by method, bind the form with `data or None`, and when the
method is POST or GET and the form is valid, extract the raw criteria from
`data`, filter with `applyFilters`, and when the surviving queryset is
non-empty (`qs.exists()`) build `recipes_df` and the chart; otherwise both
stay `None`. -/
def get_context_data (req : HttpRequest) (db : List Recipe) (st : PltFigure) :
    SearchContext :=
  let data : Option SearchData :=
    match req.method with
    | Method.post => some req.postParams
    | Method.get => some req.getParams
    | Method.other => none
  let bound : Option SearchData :=
    match data with
    | some d => if dataTruthy d then some d else none
    | none => none
  let methodOk : Bool :=
    match req.method with
    | Method.post => true
    | Method.get => true
    | Method.other => false
  if methodOk && RecipeSearchForm.is_valid bound then
    let d := data.getD emptySearchData
    let qs := applyFilters d db
    if qs ≠ [] then
      let recipes_df := annotateRows qs
      let chart := (get_chart d.chart_type recipes_df st).2
      ⟨db, some recipes_df, chart⟩
    else ⟨db, none, none⟩
  else ⟨db, none, none⟩

/-- The GET handler of `RecipeListView`: the inherited `ListView.get` renders
the template with the context from `get_context_data`. -/
def RecipeListView.handleGet (req : HttpRequest) (db : List Recipe) (st : PltFigure) :
    SearchContext :=
  get_context_data req db st

/-- Embedding of `RecipeListView.post` (views.py): `return self.get(request,
*args, **kwargs)` — the POST handler delegates to the GET handler with the
request unchanged. -/
def RecipeListView.handlePost (req : HttpRequest) (db : List Recipe) (st : PltFigure) :
    SearchContext :=
  RecipeListView.handleGet req db st

/-- The category values of `CATEGORY_CHOICES` in models.py. -/
def CATEGORY_CHOICES : List String := ["breakfast", "lunch", "dinner", "dessert", "snack"]

/-- User-supplied field values for creating or updating a recipe, as accepted
by the `RecipeCreateView` model form (views.py fields list).  The cooking
time arrives as an arbitrary integer and is validated; `category` may be
omitted, in which case the model default applies. -/
structure RecipeInput where
  name : String
  cooking_time : Int
  ingredients : String
  description : Option String
  category : Option String
  pic : Option String
deriving DecidableEq, Repr

/-- Category validation: an omitted value is fine (the default applies); a
supplied value must belong to `CATEGORY_CHOICES` (models.py `choices=`). -/
def categoryOk : Option String → Bool
  | none => true
  | some c => CATEGORY_CHOICES.contains c

/-- Embedding of validated recipe creation (models.py field declarations
enforced through the `RecipeCreateView` model form; Django's validation
machinery is an external collaborator): `name` is required with
`max_length=120`, `cooking_time` is a `PositiveIntegerField` (value ≥ 0),
`ingredients` is required, `category` must be one of the choices and defaults
to `'lunch'`; the owner is the requesting user (views.py `form_valid`). -/
def Recipe.create (inp : RecipeInput) (uid newId : Nat) : Option Recipe :=
  if inp.name ≠ "" ∧ inp.name.length ≤ 120 ∧ 0 ≤ inp.cooking_time
      ∧ inp.ingredients ≠ "" ∧ categoryOk inp.category = true then
    some ⟨newId, inp.name, inp.cooking_time.toNat, inp.ingredients,
      inp.description, inp.category.getD "lunch", inp.pic, uid⟩
  else none

/-- Updating a stored recipe re-validates the same fields (the admin change
form validates against the same model declarations) and keeps the row's key
and owner. -/
def Recipe.update (r : Recipe) (inp : RecipeInput) : Option Recipe :=
  Recipe.create inp r.user r.id

/-- The data-model invariants of spec section 3 on a stored row. -/
def recipeInvariant (r : Recipe) : Prop :=
  0 ≤ (r.cooking_time : Int) ∧ r.category ∈ CATEGORY_CHOICES ∧ r.name.length ≤ 120

/-- Embedding of `get_recipename_from_id` (utils.py): `Recipe.objects.get(id=val)`
inside `try`, returning the recipe's name, with the `Recipe.DoesNotExist`
handler returning the fallback string — so the function is total and never
propagates an exception for a missing id. -/
def get_recipename_from_id (val : Nat) (db : List Recipe) : String :=
  match db.find? (fun r => r.id == val) with
  | some recipename => recipename.name
  | none => "Unknown Recipe"

example : ingredients_list "salt, water, sugar" = ["salt", "water", "sugar"] := by decide
example : ingredients_list "" = [] := by decide
example : ingredients_list "  tomato  ,  onion ,, garlic " = ["tomato", "onion", "garlic"] := by decide
example : difficultyOf 5 2 = "Easy" := by decide
example : Recipe.difficulty spaghetti = "Hard" := by decide
example : icontains "Spaghetti Carbonara" "SPAGHETTI" = true := by decide

/-- A `filterMap` that keeps `f a` when `p (f a)` holds is the filter of the
mapped list: the comprehension shape of `ingredients_list` against the
map-then-filter shape of the spec wording. -/
theorem filterMap_keep_eq_filter_map (l : List String) (f : String → String) :
    l.filterMap (fun a => if f a ≠ "" then some (f a) else none)
      = (l.map f).filter (fun t => t ≠ "") := by
  induction l with
  | nil => rfl
  | cons a t ih =>
    by_cases h : f a = ""
    · simp [List.filterMap_cons, List.filter_cons, h]
      simpa using ih
    · simp [List.filterMap_cons, List.filter_cons, h]
      simpa using ih

/-- Claim C1: the difficulty classification is total and deterministic and
realizes exactly the four-region table of spec section 4.1: `t < 10 ∧ n < 4`
is 'Easy', `t < 10 ∧ n ≥ 4` is 'Medium', `t ≥ 10 ∧ n < 4` is 'Intermediate',
`t ≥ 10 ∧ n ≥ 4` is 'Hard'; the iffs make the regions partition the input
space with no gaps or overlaps, with boundaries inclusive exactly at `t = 10`
and `n = 4`, and the result is always one of the four labels. -/
theorem claim_C1_difficulty_table (t n : Nat) :
    (difficultyOf t n = "Easy" ↔ t < 10 ∧ n < 4)
  ∧ (difficultyOf t n = "Medium" ↔ t < 10 ∧ 4 ≤ n)
  ∧ (difficultyOf t n = "Intermediate" ↔ 10 ≤ t ∧ n < 4)
  ∧ (difficultyOf t n = "Hard" ↔ 10 ≤ t ∧ 4 ≤ n)
  ∧ difficultyOf t n ∈ ["Easy", "Medium", "Intermediate", "Hard"] := by
  unfold difficultyOf
  split_ifs with h1 h2 h3 <;> refine ⟨?_, ?_, ?_, ?_, ?_⟩ <;> simp_all

/-- Claim C5: for every ingredients string, the code's derivation agrees with
the spec wording — split on commas, trim whitespace from each token, discard
empty tokens, preserving order and duplicates — and the three example inputs
of spec section 8 evaluate as stated. -/
theorem claim_C5_ingredients_list :
    (∀ s, ingredients_list s = ingredientsList_spec s)
  ∧ ingredients_list "salt, water, sugar" = ["salt", "water", "sugar"]
  ∧ ingredients_list "" = []
  ∧ ingredients_list "  tomato  ,  onion ,, garlic " = ["tomato", "onion", "garlic"] := by
  refine ⟨fun s => ?_, by decide, by decide, by decide⟩
  by_cases h : s = ""
  · subst h; decide
  · unfold ingredients_list ingredientsList_spec
    rw [if_neg h]
    exact filterMap_keep_eq_filter_map _ pyStrip

theorem mem_filterByName (v : Option String) (qs : List Recipe) (r : Recipe) :
    r ∈ filterByName v qs
      ↔ r ∈ qs ∧ (v.getD "" ≠ "" → icontains r.name (v.getD "") = true) := by
  unfold filterByName
  by_cases h : v.getD "" = ""
  · simp [h]
  · simp [h, List.mem_filter]

theorem mem_filterByIngredient (v : Option String) (qs : List Recipe) (r : Recipe) :
    r ∈ filterByIngredient v qs
      ↔ r ∈ qs ∧ (v.getD "" ≠ "" → icontains r.ingredients (v.getD "") = true) := by
  unfold filterByIngredient
  by_cases h : v.getD "" = ""
  · simp [h]
  · simp [h, List.mem_filter]

theorem mem_filterByCategory (v : Option String) (qs : List Recipe) (r : Recipe) :
    r ∈ filterByCategory v qs
      ↔ r ∈ qs ∧ (v.getD "" ≠ "" → r.category = v.getD "") := by
  unfold filterByCategory
  by_cases h : v.getD "" = ""
  · simp [h]
  · simp [h, List.mem_filter]

/-- The `id__in` narrowing of the difficulty filter coincides with filtering
by the computed difficulty itself whenever the surviving rows carry distinct
primary keys. -/
theorem mem_filterByDifficulty (v : Option String) (qs : List Recipe)
    (hids : (qs.map Recipe.id).Nodup) (r : Recipe) :
    r ∈ filterByDifficulty v qs
      ↔ r ∈ qs ∧ (v.getD "" ≠ "" → Recipe.difficulty r = v.getD "") := by
  unfold filterByDifficulty
  by_cases h : v.getD "" = ""
  · simp [h]
  · rw [if_pos h]
    rw [List.mem_filter]
    constructor
    · rintro ⟨hr, hc⟩
      refine ⟨hr, fun _ => ?_⟩
      have hmem : r.id ∈ (qs.filter
          (fun x => Recipe.difficulty x = v.getD "")).map (fun x => x.id) := by
        simpa using hc
      obtain ⟨r2, hr2, hid⟩ := List.mem_map.mp hmem
      obtain ⟨hr2q, hd2⟩ := List.mem_filter.mp hr2
      have hrr : r2 = r := List.inj_on_of_nodup_map hids hr2q hr hid
      subst hrr
      simpa using hd2
    · rintro ⟨hr, himp⟩
      refine ⟨hr, ?_⟩
      have hmem : r.id ∈ (qs.filter
          (fun x => Recipe.difficulty x = v.getD "")).map (fun x => x.id) :=
        List.mem_map.mpr ⟨r, List.mem_filter.mpr ⟨hr, by simpa using himp h⟩, rfl⟩
      simpa using hmem

theorem filterByName_sublist (v : Option String) (qs : List Recipe) :
    List.Sublist (filterByName v qs) qs := by
  unfold filterByName
  by_cases h : v.getD "" = ""
  · rw [if_neg (not_not_intro h)]
  · rw [if_pos h]
    exact List.filter_sublist qs

theorem filterByIngredient_sublist (v : Option String) (qs : List Recipe) :
    List.Sublist (filterByIngredient v qs) qs := by
  unfold filterByIngredient
  by_cases h : v.getD "" = ""
  · rw [if_neg (not_not_intro h)]
  · rw [if_pos h]
    exact List.filter_sublist qs

theorem filterByCategory_sublist (v : Option String) (qs : List Recipe) :
    List.Sublist (filterByCategory v qs) qs := by
  unfold filterByCategory
  by_cases h : v.getD "" = ""
  · rw [if_neg (not_not_intro h)]
  · rw [if_pos h]
    exact List.filter_sublist qs

/-- Claim C2: the search starts from the full collection and the four
conditional filters, applied in program order name → ingredient → category →
difficulty, behave conjunctively: a row survives exactly when it is in the
collection and passes every supplied criterion, an absent (or empty) value
being a pass-through rather than a zero-match condition.  The difficulty
criterion compares the computed classification of each surviving row; its
`id__in` realization needs the rows' primary keys to be distinct, which the
hypothesis records. -/
theorem claim_C2_conjunctive_filters (d : SearchData) (db : List Recipe)
    (hids : (db.map Recipe.id).Nodup) (r : Recipe) :
    r ∈ applyFilters d db ↔
      r ∈ db
      ∧ (d.recipe_name.getD "" ≠ "" → icontains r.name (d.recipe_name.getD "") = true)
      ∧ (d.ingredient.getD "" ≠ "" → icontains r.ingredients (d.ingredient.getD "") = true)
      ∧ (d.category.getD "" ≠ "" → r.category = d.category.getD "")
      ∧ (d.difficulty.getD "" ≠ "" → Recipe.difficulty r = d.difficulty.getD "") := by
  have n1 : ((filterByName d.recipe_name db).map Recipe.id).Nodup :=
    hids.sublist ((filterByName_sublist _ _).map Recipe.id)
  have n2 : ((filterByIngredient d.ingredient
      (filterByName d.recipe_name db)).map Recipe.id).Nodup :=
    n1.sublist ((filterByIngredient_sublist _ _).map Recipe.id)
  have n3 : ((filterByCategory d.category (filterByIngredient d.ingredient
      (filterByName d.recipe_name db))).map Recipe.id).Nodup :=
    n2.sublist ((filterByCategory_sublist _ _).map Recipe.id)
  unfold applyFilters
  rw [mem_filterByDifficulty _ _ n3, mem_filterByCategory, mem_filterByIngredient,
    mem_filterByName]
  tauto

/-- Claim C2 witness at a concrete store and criteria. -/
theorem claim_C2_witness :
    spaghetti ∈ applyFilters ⟨none, none, none, some "Hard", none⟩ [spaghetti, caesarSalad] :=
  (claim_C2_conjunctive_filters ⟨none, none, none, some "Hard", none⟩
      [spaghetti, caesarSalad] (by decide) spaghetti).mpr
    ⟨by decide, by decide, by decide, by decide, by decide⟩

/-- Claim C6: the name filter keeps exactly the rows whose `name` contains
the term case-insensitively, and the ingredient filter keeps exactly the rows
whose raw comma-separated `ingredients` text contains the term
case-insensitively; concretely, "SPAGHETTI" matches "Spaghetti Carbonara",
the term "t, wat" matches the raw text "salt, water, sugar" across a comma
boundary while matching none of the parsed tokens, and "WATER" matches inside
the single token "water". -/
theorem claim_C6_icontains_filters (db : List Recipe) (term : String) (r : Recipe)
    (h : term ≠ "") :
    (r ∈ applyFilters ⟨some term, none, none, none, none⟩ db
        ↔ r ∈ db ∧ icontains r.name term = true)
  ∧ (r ∈ applyFilters ⟨none, some term, none, none, none⟩ db
        ↔ r ∈ db ∧ icontains r.ingredients term = true)
  ∧ icontains "Spaghetti Carbonara" "SPAGHETTI" = true
  ∧ icontains "salt, water, sugar" "t, wat" = true
  ∧ (ingredients_list "salt, water, sugar").all (fun tok => !(icontains tok "t, wat")) = true
  ∧ icontains "salt, water, sugar" "WATER" = true := by
  refine ⟨?_, ?_, by decide, by decide, by decide, by decide⟩
  · unfold applyFilters filterByDifficulty filterByCategory filterByIngredient
    simp [mem_filterByName, h]
  · unfold applyFilters filterByDifficulty filterByCategory filterByName
    simp [mem_filterByIngredient, h]

/-- Claim C6 witness at a concrete store and term. -/
theorem claim_C6_witness :
    spaghetti ∈ applyFilters ⟨some "SPAGHETTI", none, none, none, none⟩ [spaghetti] :=
  ((claim_C6_icontains_filters [spaghetti] "SPAGHETTI" spaghetti (by decide)).1).mpr
    ⟨by decide, by decide⟩

/-- Claim C3, evaluated at the failing input: calling `get_chart` with the
unrecognized chart type '#4' and a non-empty data set does NOT leave the
output absent — the function falls through its `else: print('Unknown chart
type')` branch, draws nothing, and still renders and returns the
base64-encoded image of the blank 8x5 figure, a non-empty string.  This
contradicts both the claim and the function's own docstring, which promises
`None` for an invalid chart type. -/
theorem claim_C3_invalid_chart_type_still_returns_image :
    (get_chart (some "#4") (annotateRows [spaghetti]) ⟨8, 5, [DrawCmd.grid]⟩).2
        = some "iVBORpng8x5:"
  ∧ (get_chart (some "#4") (annotateRows [spaghetti]) ⟨8, 5, [DrawCmd.grid]⟩).1.commands = []
  ∧ ("iVBORpng8x5:" : String) ≠ "" := by
  refine ⟨by decide, by decide, by decide⟩

/-- Claim C7: `get_chart` clears the rendering surface (`plt.clf()` followed
by a fresh `plt.figure`) before drawing, so its result — both the figure left
behind and the encoded image — depends only on the chart type and data of
that call, never on state left by an earlier call. -/
theorem claim_C7_no_chart_state_leak (ct : Option String) (data : List AnnotatedRow)
    (st1 st2 : PltFigure) :
    get_chart ct data st1 = get_chart ct data st2 := rfl

/-- Claim C8: `RecipeListView.post` delegates to the GET handler, and a POST
carrying criteria `p` produces exactly the same context — the same filtered
collection, the same per-row difficulty and ingredient-count annotations, and
the same chart output — as a GET carrying the same criteria `p`, whatever the
other parameter dict, store, and figure state are. -/
theorem claim_C8_post_get_convergence (p g1 g2 : SearchData) (db : List Recipe)
    (st : PltFigure) :
    RecipeListView.handlePost ⟨Method.post, g1, p⟩ db st
      = RecipeListView.handleGet ⟨Method.get, p, g2⟩ db st := rfl

/-- Claim C4 as stated is refuted here: `chart_type` is not optional.  A
submission that supplies only a recipe name — with the chart type absent — is
rejected by `RecipeSearchForm` (its `chart_type` is a required
`ChoiceField`), and the corresponding GET request performs no search at all:
`recipes_df` stays `None` even though the store holds a matching recipe. -/
theorem claim_C4_counterexample :
    RecipeSearchForm.is_valid (some ⟨some "pasta", none, none, none, none⟩) = false
  ∧ (get_context_data
        ⟨Method.get, ⟨some "Spaghetti", none, none, none, none⟩, emptySearchData⟩
        [spaghetti] ⟨8, 5, []⟩).recipes_df = none := by
  refine ⟨by decide, by decide⟩

/-- Claim C4 as amended: the recipe-name, ingredient, category and difficulty
inputs are optional — supplying only a chart type validates and filters
nothing, returning the full collection — but the chart type itself is
required: any data without it fails validation; and a request that supplies
no criteria at all leaves the full collection in the context, unfiltered,
with no search table and no chart. -/
theorem claim_C4_optionality (db : List Recipe) (st : PltFigure) (g : SearchData)
    (ct : String) (hct : ct ∈ CHART_CHOICES) (d : SearchData)
    (hd : d.chart_type = none) :
    (RecipeSearchForm.is_valid (some ⟨none, none, some ct, none, none⟩) = true
      ∧ applyFilters ⟨none, none, some ct, none, none⟩ db = db)
  ∧ RecipeSearchForm.is_valid (some d) = false
  ∧ get_context_data ⟨Method.get, emptySearchData, g⟩ db st = ⟨db, none, none⟩ := by
  refine ⟨⟨?_, rfl⟩, ?_, rfl⟩
  · fin_cases hct <;> decide
  · simp [RecipeSearchForm.is_valid, choiceFieldValid, hd]

/-- Claim C4 witness at concrete inputs. -/
theorem claim_C4_witness :
    (RecipeSearchForm.is_valid (some ⟨none, none, some "#1", none, none⟩) = true
      ∧ applyFilters ⟨none, none, some "#1", none, none⟩ [spaghetti] = [spaghetti])
  ∧ RecipeSearchForm.is_valid (some ⟨some "pizza", none, none, none, none⟩) = false
  ∧ get_context_data ⟨Method.get, emptySearchData, emptySearchData⟩ [spaghetti] ⟨8, 5, []⟩
      = ⟨[spaghetti], none, none⟩ :=
  claim_C4_optionality [spaghetti] ⟨8, 5, []⟩ emptySearchData "#1" (by decide)
    ⟨some "pizza", none, none, none, none⟩ rfl

theorem create_invariant (inp : RecipeInput) (uid newId : Nat) (r : Recipe)
    (he : Recipe.create inp uid newId = some r) : recipeInvariant r := by
  unfold Recipe.create at he
  split_ifs at he with h
  · cases he
    obtain ⟨h1, h2, h3, h4, h5⟩ := h
    refine ⟨Int.natCast_nonneg _, ?_, h2⟩
    cases hc : inp.category with
    | none => exact (by decide : ("lunch" : String) ∈ CATEGORY_CHOICES)
    | some c =>
      rw [hc] at h5
      simp only [categoryOk] at h5
      simpa [hc] using h5

/-- Claim C9: every recipe produced by a validated create or update satisfies
the data-model invariants — non-negative cooking time, category within the
fixed enumeration, name of at most 120 characters — and an unspecified
category defaults to 'lunch'. -/
theorem claim_C9_invariants (inp : RecipeInput) (uid newId : Nat) (r r0 : Recipe) :
    (Recipe.create inp uid newId = some r → recipeInvariant r)
  ∧ (Recipe.update r0 inp = some r → recipeInvariant r)
  ∧ (inp.category = none → Recipe.create inp uid newId = some r →
      r.category = "lunch") := by
  refine ⟨create_invariant inp uid newId r, ?_, ?_⟩
  · unfold Recipe.update
    exact create_invariant inp r0.user r0.id r
  · intro hnone he
    unfold Recipe.create at he
    split_ifs at he with h
    cases he
    simp [hnone]

def pastaInput : RecipeInput := ⟨"Pasta", 15, "pasta, tomato", none, none, none⟩

def pastaRecipe : Recipe := ⟨7, "Pasta", 15, "pasta, tomato", none, "lunch", none, 3⟩

/-- Claim C9 witness: a concrete validated creation satisfies the invariants
and receives the default category. -/
theorem claim_C9_witness :
    recipeInvariant pastaRecipe ∧ pastaRecipe.category = "lunch" :=
  ⟨(claim_C9_invariants pastaInput 3 7 pastaRecipe spaghetti).1 (by decide),
   (claim_C9_invariants pastaInput 3 7 pastaRecipe spaghetti).2.2 rfl (by decide)⟩

/-- Claim C10: `get_recipename_from_id` returns the stored recipe's name when
a row with the requested primary key exists (keys being unique), and the
fallback string "Unknown Recipe" when no such row exists; being a total
function of the store, it raises nothing for a missing identifier. -/
theorem claim_C10_recipename_fallback (db : List Recipe) (val : Nat) :
    (∀ r, r ∈ db → r.id = val → (db.map Recipe.id).Nodup →
        get_recipename_from_id val db = r.name)
  ∧ ((∀ r ∈ db, r.id ≠ val) → get_recipename_from_id val db = "Unknown Recipe") := by
  constructor
  · intro r hr hid hnd
    unfold get_recipename_from_id
    cases hfind : db.find? (fun x => x.id == val) with
    | none =>
      exfalso
      have hx := List.find?_eq_none.mp hfind r hr
      simp [hid] at hx
    | some a =>
      have hpa := List.find?_some hfind
      have ha : a ∈ db := List.mem_of_find?_eq_some hfind
      have haid : a.id = val := by simpa using hpa
      have har : a = r := List.inj_on_of_nodup_map hnd ha hr (by rw [haid, hid])
      rw [har]
  · intro hnone
    unfold get_recipename_from_id
    have hfind : db.find? (fun x => x.id == val) = none := by
      rw [List.find?_eq_none]
      intro x hx
      simp [hnone x hx]
    rw [hfind]

/-- Claim C10 witness: a present id yields the stored name, an absent id the
fallback. -/
theorem claim_C10_witness :
    get_recipename_from_id 1 [spaghetti, caesarSalad] = "Spaghetti Carbonara"
  ∧ get_recipename_from_id 99 [spaghetti, caesarSalad] = "Unknown Recipe" :=
  ⟨(claim_C10_recipename_fallback [spaghetti, caesarSalad] 1).1 spaghetti (by decide)
      rfl (by decide),
   (claim_C10_recipename_fallback [spaghetti, caesarSalad] 99).2 (by decide)⟩
